import Mathlib

/-!
Verification development for `airflow_pg_healthcheck.py`, a periodic
Postgres health probe and Prometheus exporter for an Airflow backend.

The scrape cycle (`scrape_once`) is embedded as a pure function of the
outcomes of its external interactions:

* `tcpOk`      — result of the raw TCP reachability probe (`tcp_check`);
* `connectOk`  — whether `psycopg2.connect` succeeded (an
  `OperationalError` is the caught alternative);
* `DbRun`      — the outcomes of the three queries executed inside the
  `try` block: the liveness query (`SELECT 1;`, yielding the fetched row
  and the measured latency in milliseconds), the unfiltered
  `pg_stat_activity` aggregate, and the Airflow/Celery-filtered
  aggregate.  Each is an `Except Unit _` because any of them may raise;
  a raise at one stage means the later stages are never reached, which
  the embedding reflects by simply not consuming the later fields.
* `Gauges`     — the nine Prometheus gauges; a gauge keeps its previous
  value unless `.set` is executed on the taken path.

Latency is a float in the source (milliseconds); it is modelled as `ℚ`.
Row values and session counts are modelled as `Int`, thresholds as `Int`
(they are produced by `int(...)` casts of environment variables).
-/

namespace AirflowPgHealthcheck

/-- Configuration thresholds read at startup: `AF_WARN_IDLE_IN_TX`,
`AF_WARN_ACTIVE_CONN`, `AF_WARN_LATENCY_MS`. -/
structure Config where
  warn_idle_in_tx : Int
  warn_active_conn : Int
  warn_latency_ms : Int
deriving DecidableEq

/-- Outcomes of the three queries executed inside the `try` block of
`scrape_once`.  `select1` carries the row returned by `fetchone()`
(`Option` because `fetchone` may return `None`; the expected row `(1,)`
is `some [1]`) together with the measured latency in milliseconds.
The two statistics queries carry the `fetchone()` result: `none` for an
empty result set, otherwise the `(active, idle_in_tx, total)` triple. -/
structure DbRun where
  select1 : Except Unit (Option (List Int) × ℚ)
  statDb : Except Unit (Option (Int × Int × Int))
  statAf : Except Unit (Option (Int × Int × Int))

/-- The nine Prometheus gauges published by the exporter. -/
structure Gauges where
  pg_up : ℚ
  pg_latency_ms : ℚ
  pg_db_total : ℚ
  pg_db_active : ℚ
  pg_db_idle_in_tx : ℚ
  pg_af_total : ℚ
  pg_af_active : ℚ
  pg_af_idle_in_tx : ℚ
  pg_status : ℚ
deriving DecidableEq

/-- Local state accumulated by the `try` block of `scrape_once`:
`status` plus the locals initialised at lines 126-128 of the source
(`latency_ms = -1`, all six counts `= 0`). -/
structure Gathered where
  status : Int
  latency_ms : ℚ
  db_active : Int
  db_idle_in_tx : Int
  db_total : Int
  af_active : Int
  af_idle_in_tx : Int
  af_total : Int
deriving DecidableEq

/-- The `try ... except Exception: status = max(status, 2)` block of
`scrape_once` (source lines 130-172): runs the liveness query, checks
`row != (1,)`, then the two statistics queries with
`cur.fetchone() or (0, 0, 0)`.  An exception at any stage leaves the
not-yet-assigned locals at their initial values and raises `status` to
`max status 2`. -/
def gather (run : DbRun) : Gathered :=
  let st : Gathered := ⟨0, -1, 0, 0, 0, 0, 0, 0⟩
  match run.select1 with
  | .error _ => { st with status := max st.status 2 }
  | .ok (row, lat) =>
    let st := { st with latency_ms := lat }
    let st := if row ≠ some [1] then { st with status := max st.status 2 } else st
    match run.statDb with
    | .error _ => { st with status := max st.status 2 }
    | .ok r =>
      let p := r.getD (0, 0, 0)
      let st := { st with db_active := p.1, db_idle_in_tx := p.2.1, db_total := p.2.2 }
      match run.statAf with
      | .error _ => { st with status := max st.status 2 }
      | .ok r2 =>
        let q := r2.getD (0, 0, 0)
        { st with af_active := q.1, af_idle_in_tx := q.2.1, af_total := q.2.2 }

/-- One scrape cycle (`scrape_once`, source lines 88-198), as a function
from the previous gauge values to the new gauge values.

* TCP probe failure: set `PG_UP` to 0, `PG_LATENCY_MS` to -1,
  `PG_STATUS` to 2 and return, leaving the six count gauges as they are.
* `psycopg2.connect` failure (`OperationalError`): identical publication
  and early return.
* Otherwise `PG_UP` is set to 1, the `try` block runs (`gather`), and
  the threshold analysis publishes every remaining gauge:
  `latency_ms >= 0` publishes the latency and applies the strict
  `latency_ms > WARN_LATENCY_MS` warning, otherwise the -1 sentinel is
  published and `status` is raised to 2; the six counts are published;
  the strict `>` comparisons against `WARN_IDLE_IN_TX` and
  `WARN_ACTIVE_CONN` each may raise `status` to 1; finally `PG_STATUS`
  is set. -/
def scrape_once (cfg : Config) (tcpOk connectOk : Bool) (run : DbRun) (g : Gauges) :
    Gauges :=
  if tcpOk = false then
    { g with pg_up := 0, pg_latency_ms := -1, pg_status := 2 }
  else if connectOk = false then
    { g with pg_up := 0, pg_latency_ms := -1, pg_status := 2 }
  else
    let s := gather run
    let latGauge : ℚ := if 0 ≤ s.latency_ms then s.latency_ms else -1
    let status1 : Int :=
      if 0 ≤ s.latency_ms then
        if (cfg.warn_latency_ms : ℚ) < s.latency_ms then max s.status 1 else s.status
      else max s.status 2
    let status2 : Int :=
      if cfg.warn_idle_in_tx < s.db_idle_in_tx then max status1 1 else status1
    let status3 : Int :=
      if cfg.warn_active_conn < s.db_active then max status2 1 else status2
    { pg_up := 1
      pg_latency_ms := latGauge
      pg_db_total := (s.db_total : ℚ)
      pg_db_active := (s.db_active : ℚ)
      pg_db_idle_in_tx := (s.db_idle_in_tx : ℚ)
      pg_af_total := (s.af_total : ℚ)
      pg_af_active := (s.af_active : ℚ)
      pg_af_idle_in_tx := (s.af_idle_in_tx : ℚ)
      pg_status := (status3 : ℚ) }

/-- Whether an exception is raised somewhere inside the `try` block on
the path actually executed: the liveness query raises, or it succeeds
and the unfiltered statistics query raises, or both succeed and the
filtered statistics query raises. -/
def raisedException (run : DbRun) : Bool :=
  match run.select1 with
  | .error _ => true
  | .ok _ =>
    match run.statDb with
    | .error _ => true
    | .ok _ =>
      match run.statAf with
      | .error _ => true
      | .ok _ => false

/-- A fully clean run: liveness query returns `(1,)` with the given
latency, and both statistics queries return rows with the given
triples. -/
def cleanRun (lat : ℚ) (db af : Int × Int × Int) : DbRun :=
  ⟨.ok (some [1], lat), .ok (some db), .ok (some af)⟩

/-- Python values flowing through `env`: the environment always yields
strings, defaults are strings, ints or `None`, and `int(...)` casts
strings to ints. -/
inductive PyVal where
  | str : String → PyVal
  | int : Int → PyVal
  | pyNone : PyVal
deriving DecidableEq

/-- Accumulate a run of decimal digits; any non-digit character makes
the whole parse fail. -/
def parseDigitsAux (acc : Nat) : List Char → Option Nat
  | [] => some acc
  | c :: cs =>
    if c.isDigit then parseDigitsAux (10 * acc + (c.toNat - 48)) cs
    else Option.none

/-- Python `int(...)` applied to a string: an optional sign followed by
a non-empty run of decimal digits parses to the corresponding integer;
anything else raises `ValueError` (`Option.none`).  (Python also strips
surrounding whitespace and allows underscores between digits; no input
in this development uses those forms.) -/
def pyParseInt (s : String) : Option Int :=
  match s.data with
  | [] => Option.none
  | '-' :: cs =>
    if cs.isEmpty then Option.none
    else (parseDigitsAux 0 cs).map (fun n => -(n : Int))
  | '+' :: cs =>
    if cs.isEmpty then Option.none
    else (parseDigitsAux 0 cs).map (fun n => (n : Int))
  | cs => (parseDigitsAux 0 cs).map (fun n => (n : Int))

/-- The `cast=int` argument of `env`: Python `int(...)`. On a decimal
string it parses it (raising `ValueError`, i.e. `Option.none`, when the
string is not an integer literal); on an int it is the identity; on
`None` it raises `TypeError`. -/
def pyIntCast (v : PyVal) : Option PyVal :=
  match v with
  | .str s => (pyParseInt s).map PyVal.int
  | .int n => some (.int n)
  | .pyNone => Option.none

/-- The default `cast=str` argument of `env`: Python `str(...)`, which
never raises. -/
def pyStrCast (v : PyVal) : Option PyVal :=
  match v with
  | .str s => some (.str s)
  | .int n => some (.str (toString n))
  | .pyNone => some (.str "None")

/-- The `env` helper (source lines 12-21): look the name up in the
environment falling back to `default`; raise `RuntimeError` if
`required` and the value is `None`; return `None` unchanged; otherwise
try the cast and, when the cast raises, silently return `default`
uncast. -/
def env (environ : String → Option String) (name : String) (default : PyVal)
    (required : Bool) (cast : PyVal → Option PyVal) : Except String PyVal :=
  let val : PyVal :=
    match environ name with
    | some s => .str s
    | Option.none => default
  if required = true ∧ val = PyVal.pyNone then
    .error ("Env var " ++ name ++ " is required")
  else if val = PyVal.pyNone then .ok .pyNone
  else
    match cast val with
    | some v => .ok v
    | Option.none => .ok default

/-- The module-level configuration values (source lines 26-40). -/
structure StartupConfig where
  pg_host : PyVal
  pg_port : PyVal
  pg_db : PyVal
  pg_user : PyVal
  pg_password : PyVal
  scrape_interval : PyVal
  exporter_port : PyVal
  exporter_addr : PyVal
  warn_idle_in_tx : PyVal
  warn_active_conn : PyVal
  warn_latency_ms : PyVal
deriving DecidableEq

/-- Module import: the sequence of `env` calls at source lines 26-40,
executed in order; the first `RuntimeError` aborts startup. -/
def startupConfig (environ : String → Option String) : Except String StartupConfig := do
  let host ← env environ "AF_PG_HOST" (.str "127.0.0.1") false pyStrCast
  let port ← env environ "AF_PG_PORT" (.str "5432") false pyIntCast
  let db ← env environ "AF_PG_DB" (.str "airflow") false pyStrCast
  let user ← env environ "AF_PG_USER" (.str "airflow") false pyStrCast
  let password ← env environ "AF_PG_PASSWORD" .pyNone true pyStrCast
  let interval ← env environ "AF_SCRAPE_INTERVAL_SECONDS" (.int 10) false pyIntCast
  let eport ← env environ "AF_EXPORTER_PORT" (.int 9105) false pyIntCast
  let eaddr ← env environ "AF_EXPORTER_ADDR" (.str "0.0.0.0") false pyStrCast
  let wIdle ← env environ "AF_WARN_IDLE_IN_TX" (.int 5) false pyIntCast
  let wActive ← env environ "AF_WARN_ACTIVE_CONN" (.int 80) false pyIntCast
  let wLat ← env environ "AF_WARN_LATENCY_MS" (.int 500) false pyIntCast
  return ⟨host, port, db, user, password, interval, eport, eaddr, wIdle, wActive, wLat⟩

/-- An environment in which only the password variable is set: the host
variable `AF_PG_HOST` is absent. -/
def environPasswordOnly : String → Option String := fun n =>
  if n = "AF_PG_PASSWORD" then some "s3cret" else Option.none

/-- An environment with a non-integer port value and a password. -/
def environBadPort : String → Option String := fun n =>
  if n = "AF_PG_PORT" then some "abc"
  else if n = "AF_PG_PASSWORD" then some "s3cret" else Option.none

/-- The arguments of the `status = max(status, k)` assignments executed
inside the `try` block, in execution order: `2` when the liveness query
raises; otherwise `2` when `row != (1,)`, followed by `2` when the
first statistics query raises, or when it succeeds and the second one
raises. -/
def tryUpdates (run : DbRun) : List Int :=
  match run.select1 with
  | .error _ => [2]
  | .ok (row, _) =>
    (if row ≠ some [1] then [2] else []) ++
      (match run.statDb with
       | .error _ => [2]
       | .ok _ =>
         match run.statAf with
         | .error _ => [2]
         | .ok _ => [])

/-- The arguments of the `status = max(status, k)` assignments executed
during the threshold analysis (source lines 176-196), in execution
order: the latency rule (`1` on a strict threshold breach, `2` when the
latency is the unmeasured sentinel), the idle-in-transaction rule and
the active-connections rule. -/
def analysisUpdates (cfg : Config) (run : DbRun) : List Int :=
  let s := gather run
  (if 0 ≤ s.latency_ms then
    if (cfg.warn_latency_ms : ℚ) < s.latency_ms then [1] else []
   else [2]) ++
    (if cfg.warn_idle_in_tx < s.db_idle_in_tx then [1] else []) ++
      (if cfg.warn_active_conn < s.db_active then [1] else [])

/-- All severity updates applied to `status` during one cycle, in
execution order.  A cycle that ends early at the TCP probe or at
`psycopg2.connect` publishes the direct `PG_STATUS.set(2)`. -/
def statusUpdates (cfg : Config) (tcpOk connectOk : Bool) (run : DbRun) : List Int :=
  if tcpOk = false then [2]
  else if connectOk = false then [2]
  else tryUpdates run ++ analysisUpdates cfg run

/-- The severity contributed by each individual rule of the health
classifier, stated rule-by-rule as in the specification: unexpected
liveness row ⇒ 2, any caught exception ⇒ 2, latency unavailable ⇒ 2,
latency strictly above threshold ⇒ 1, idle-in-transaction count
strictly above threshold ⇒ 1, active count strictly above threshold
⇒ 1; a rule that does not trigger contributes 0.  A cycle stopped at
the TCP probe or at connect contributes the single CRITICAL finding. -/
def ruleSeverities (cfg : Config) (tcpOk connectOk : Bool) (run : DbRun) : List Int :=
  if tcpOk = false then [2]
  else if connectOk = false then [2]
  else
    let s := gather run
    [(match run.select1 with
      | .ok (row, _) => if row ≠ some [1] then 2 else 0
      | .error _ => 0),
      (if raisedException run = true then 2 else 0),
      (if s.latency_ms < 0 then 2 else 0),
      (if 0 ≤ s.latency_ms ∧ (cfg.warn_latency_ms : ℚ) < s.latency_ms then 1 else 0),
      (if cfg.warn_idle_in_tx < s.db_idle_in_tx then 1 else 0),
      (if cfg.warn_active_conn < s.db_active then 1 else 0)]

/-- `status` at the end of the `try` block is the running maximum of
the updates the block applied, starting from the initial `status = 0`. -/
theorem gather_status (run : DbRun) :
    (gather run).status = (tryUpdates run).foldl max 0 := by
  rcases run with ⟨s1, s2, s3⟩
  rcases s1 with e | p
  · simp [gather, tryUpdates]
  · rcases p with ⟨row, lat⟩
    rcases s2 with e2 | r2
    · by_cases h : row = some [1] <;> simp [gather, tryUpdates, h]
    · rcases s3 with e3 | r3 <;> by_cases h : row = some [1] <;>
        simp [gather, tryUpdates, h]

/-- The published `PG_STATUS` value is the fold of `max` over the
status updates of the cycle, starting from 0. -/
theorem scrape_pg_status (cfg : Config) (tcpOk connectOk : Bool) (run : DbRun)
    (g : Gauges) :
    (scrape_once cfg tcpOk connectOk run g).pg_status =
      (((statusUpdates cfg tcpOk connectOk run).foldl max 0 : Int) : ℚ) := by
  rcases tcpOk with _ | _
  · simp [scrape_once, statusUpdates]
  rcases connectOk with _ | _
  · simp [scrape_once, statusUpdates]
  have h := gather_status run
  simp only [scrape_once, statusUpdates, analysisUpdates, Bool.true_eq_false,
    if_false, List.foldl_append, ← h]
  split_ifs <;> simp [List.foldl]

/-- Folding `max` over one more element of a list never decreases the
result: the running maximum is monotone along the list. -/
theorem foldl_max_take_le (init : Int) (l : List Int) (n : ℕ) :
    (l.take n).foldl max init ≤ (l.take (n + 1)).foldl max init := by
  induction l generalizing n init with
  | nil => simp
  | cons x xs ih =>
    cases n with
    | zero =>
      simp [List.foldl]
    | succ m =>
      simpa [List.foldl] using ih (max init x) m

set_option maxHeartbeats 2000000 in
/-- The running maximum of the updates actually executed equals the
maximum over the six rule-by-rule severity contributions. -/
theorem updatesMax_eq_rulesMax (cfg : Config) (run : DbRun) :
    (statusUpdates cfg true true run).foldl max 0 =
      (ruleSeverities cfg true true run).foldl max 0 := by
  rcases run with ⟨s1, s2, s3⟩
  rcases s1 with e | ⟨row, lat⟩
  · simp only [statusUpdates, tryUpdates, analysisUpdates, ruleSeverities, gather,
      raisedException, Bool.true_eq_false, if_false, List.foldl_append, List.foldl]
    norm_num
    split_ifs <;> decide
  · rcases s2 with e2 | r2
    · by_cases hrow : row = some [1] <;>
        simp only [statusUpdates, tryUpdates, analysisUpdates, ruleSeverities, gather,
          raisedException, Bool.true_eq_false, if_false, List.foldl_append, List.foldl,
          hrow, ne_eq, not_true_eq_false, not_false_eq_true, if_true] <;>
        norm_num <;>
        split_ifs <;> rfl
    · rcases s3 with e3 | r3 <;>
        by_cases hrow : row = some [1] <;>
        simp only [statusUpdates, tryUpdates, analysisUpdates, ruleSeverities, gather,
          raisedException, Bool.true_eq_false, if_false, List.foldl_append, List.foldl,
          hrow, ne_eq, not_true_eq_false, not_false_eq_true, if_true] <;>
        norm_num <;>
        split_ifs <;> first | rfl | decide | (exfalso; linarith) | tauto

/-- Evaluation of the `try` block when the liveness query raises:
nothing was assigned, so the locals keep their initial values and
`status` is 2. -/
theorem gather_select1_error (s2 : Except Unit (Option (Int × Int × Int)))
    (s3 : Except Unit (Option (Int × Int × Int))) :
    gather ⟨.error (), s2, s3⟩ = ⟨2, -1, 0, 0, 0, 0, 0, 0⟩ := by
  simp [gather]

/-- Evaluation of the `try` block when the liveness query succeeds and
the unfiltered statistics query raises: the latency was assigned, the
counts were not, and `status` is 2. -/
theorem gather_statDb_error (row : Option (List Int)) (lat : ℚ)
    (s3 : Except Unit (Option (Int × Int × Int))) :
    gather ⟨.ok (row, lat), .error (), s3⟩ = ⟨2, lat, 0, 0, 0, 0, 0, 0⟩ := by
  by_cases h : row = some [1] <;> simp [gather, h]

/-- Evaluation of the `try` block when only the filtered statistics
query raises: latency and the unfiltered counts were assigned, the
filtered counts were not, and `status` is 2. -/
theorem gather_statAf_error (row : Option (List Int)) (lat : ℚ)
    (r2 : Option (Int × Int × Int)) :
    gather ⟨.ok (row, lat), .ok r2, .error ()⟩ =
      ⟨2, lat, (r2.getD (0, 0, 0)).1, (r2.getD (0, 0, 0)).2.1, (r2.getD (0, 0, 0)).2.2,
        0, 0, 0⟩ := by
  by_cases h : row = some [1] <;> simp [gather, h]

/-- Evaluation of the `try` block on a fully clean run: no exception,
the expected `(1,)` row, all values assigned, `status` still 0. -/
theorem gather_cleanRun (lat : ℚ) (a i t a2 i2 t2 : Int) :
    gather (cleanRun lat (a, i, t) (a2, i2, t2)) = ⟨0, lat, a, i, t, a2, i2, t2⟩ := by
  simp [gather, cleanRun]

/-- Claim C4: outage retention.  When the TCP connectivity probe fails,
the cycle publishes only the up/down flag (0), the latency sentinel
(-1) and severity CRITICAL (2); the six session-count gauges keep their
previous values; and no database connection or query is attempted —
the right-hand side does not depend on `connectOk` or on any query
outcome in `run`. -/
theorem claim_C4_outage_retention (cfg : Config) (connectOk : Bool) (run : DbRun)
    (g : Gauges) :
    scrape_once cfg false connectOk run g =
      { g with pg_up := 0, pg_latency_ms := -1, pg_status := 2 } := rfl

/-- Claim C6: session-establishment failure short-circuits the cycle.
When the TCP probe succeeds but `psycopg2.connect` raises
`OperationalError`, the failure is caught (the cycle still returns a
value), severity is published as CRITICAL (2), the latency gauge is the
-1 sentinel, and the statistics queries are not attempted — the
right-hand side does not depend on any query outcome in `run`, and no
statistics value is computed or published (the count gauges are not
touched). -/
theorem claim_C6_connect_failure_short_circuit (cfg : Config) (run : DbRun)
    (g : Gauges) :
    scrape_once cfg true false run g =
      { g with pg_up := 0, pg_latency_ms := -1, pg_status := 2 } := rfl

/-- Claim C7: missing-row handling.  A statistics query whose
`fetchone()` returns no row produces exactly the same cycle result —
classification and every published gauge — as one returning the row
`(0, 0, 0)`, and no error is raised; this holds for the unfiltered and
for the filtered statistics query. -/
theorem claim_C7_missing_row_as_zeros (cfg : Config)
    (s1 : Except Unit (Option (List Int) × ℚ))
    (s3 : Except Unit (Option (Int × Int × Int))) (g : Gauges) :
    (scrape_once cfg true true ⟨s1, .ok Option.none, s3⟩ g =
      scrape_once cfg true true ⟨s1, .ok (some (0, 0, 0)), s3⟩ g) ∧
    ∀ s2 : Except Unit (Option (Int × Int × Int)),
      scrape_once cfg true true ⟨s1, s2, .ok Option.none⟩ g =
        scrape_once cfg true true ⟨s1, s2, .ok (some (0, 0, 0))⟩ g := by
  constructor
  · have h : gather ⟨s1, .ok Option.none, s3⟩ =
        gather ⟨s1, .ok (some (0, 0, 0)), s3⟩ := by
      rcases s1 with e | ⟨row, lat⟩
      · simp [gather]
      · rcases s3 with e3 | r3 <;> by_cases hrow : row = some [1] <;>
          simp [gather, hrow]
    simp only [scrape_once, h]
  · intro s2
    have h : gather ⟨s1, s2, .ok Option.none⟩ =
        gather ⟨s1, s2, .ok (some (0, 0, 0))⟩ := by
      rcases s1 with e | ⟨row, lat⟩
      · simp [gather]
      · rcases s2 with e2 | r2 <;> by_cases hrow : row = some [1] <;>
          simp [gather, hrow]
    simp only [scrape_once, h]

/-- Claim C9: the classification is a pure, deterministic function of
its inputs.  Evaluating the cycle twice on identical inputs yields the
identical result, and the published severity depends on nothing other
than the thresholds and the probe/query outcomes — in particular not on
the previously published gauge values. -/
theorem claim_C9_classifier_deterministic (cfg : Config) (tcpOk connectOk : Bool)
    (run : DbRun) (g : Gauges) :
    (scrape_once cfg tcpOk connectOk run g = scrape_once cfg tcpOk connectOk run g) ∧
    ∀ g' : Gauges,
      (scrape_once cfg true true run g').pg_status =
        (scrape_once cfg true true run g).pg_status :=
  ⟨rfl, fun _ => rfl⟩

/-- On a clean run the published severity is the maximum of the three
threshold-rule contributions (each strict-greater-than). -/
theorem scrape_clean_status (cfg : Config) (lat : ℚ) (a i t a2 i2 t2 : Int)
    (g : Gauges) :
    (scrape_once cfg true true (cleanRun lat (a, i, t) (a2, i2, t2)) g).pg_status =
      ((max (max (max 0
          (if 0 ≤ lat then (if (cfg.warn_latency_ms : ℚ) < lat then 1 else 0) else 2))
          (if cfg.warn_idle_in_tx < i then 1 else 0))
          (if cfg.warn_active_conn < a then 1 else 0) : Int) : ℚ) := by
  simp only [scrape_once, Bool.true_eq_false, if_false, gather_cleanRun]
  split_ifs <;> norm_num

/-- Claim C1: threshold comparisons are strict greater-than.  On an
otherwise-clean cycle, a measured latency exactly equal to the latency
threshold, an idle-in-transaction count exactly equal to its threshold,
or an active count exactly equal to its threshold publishes severity 0
(no WARNING contribution), while a value one unit above the respective
threshold publishes severity 1 (WARNING). -/
theorem claim_C1_threshold_strict_boundaries (cfg : Config) (g : Gauges)
    (hL : 0 ≤ cfg.warn_latency_ms) (hI : 0 ≤ cfg.warn_idle_in_tx)
    (hA : 0 ≤ cfg.warn_active_conn) :
    (scrape_once cfg true true
      (cleanRun (cfg.warn_latency_ms : ℚ) (0, 0, 0) (0, 0, 0)) g).pg_status = 0 ∧
    (scrape_once cfg true true
      (cleanRun ((cfg.warn_latency_ms : ℚ) + 1) (0, 0, 0) (0, 0, 0)) g).pg_status = 1 ∧
    (scrape_once cfg true true
      (cleanRun 0 (0, cfg.warn_idle_in_tx, 0) (0, 0, 0)) g).pg_status = 0 ∧
    (scrape_once cfg true true
      (cleanRun 0 (0, cfg.warn_idle_in_tx + 1, 0) (0, 0, 0)) g).pg_status = 1 ∧
    (scrape_once cfg true true
      (cleanRun 0 (cfg.warn_active_conn, 0, 0) (0, 0, 0)) g).pg_status = 0 ∧
    (scrape_once cfg true true
      (cleanRun 0 (cfg.warn_active_conn + 1, 0, 0) (0, 0, 0)) g).pg_status = 1 := by
  have h1 : (0 : ℚ) ≤ (cfg.warn_latency_ms : ℚ) := by exact_mod_cast hL
  refine ⟨?_, ?_, ?_, ?_, ?_, ?_⟩ <;> rw [scrape_clean_status] <;>
    split_ifs <;>
    first
      | decide
      | (exfalso; omega)
      | (exfalso; linarith)

/-- Claim C1 witness: the boundary behaviour at the default thresholds
(5, 80, 500). -/
theorem claim_C1_threshold_strict_boundaries_witness :
    (0 : Int) ≤ 500 ∧ (0 : Int) ≤ 5 ∧ (0 : Int) ≤ 80 ∧
    ((scrape_once ⟨5, 80, 500⟩ true true
      (cleanRun ((500 : Int) : ℚ) (0, 0, 0) (0, 0, 0))
      ⟨0, 0, 0, 0, 0, 0, 0, 0, 0⟩).pg_status = 0 ∧
    (scrape_once ⟨5, 80, 500⟩ true true
      (cleanRun (((500 : Int) : ℚ) + 1) (0, 0, 0) (0, 0, 0))
      ⟨0, 0, 0, 0, 0, 0, 0, 0, 0⟩).pg_status = 1 ∧
    (scrape_once ⟨5, 80, 500⟩ true true
      (cleanRun 0 (0, 5, 0) (0, 0, 0))
      ⟨0, 0, 0, 0, 0, 0, 0, 0, 0⟩).pg_status = 0 ∧
    (scrape_once ⟨5, 80, 500⟩ true true
      (cleanRun 0 (0, 5 + 1, 0) (0, 0, 0))
      ⟨0, 0, 0, 0, 0, 0, 0, 0, 0⟩).pg_status = 1 ∧
    (scrape_once ⟨5, 80, 500⟩ true true
      (cleanRun 0 (80, 0, 0) (0, 0, 0))
      ⟨0, 0, 0, 0, 0, 0, 0, 0, 0⟩).pg_status = 0 ∧
    (scrape_once ⟨5, 80, 500⟩ true true
      (cleanRun 0 (80 + 1, 0, 0) (0, 0, 0))
      ⟨0, 0, 0, 0, 0, 0, 0, 0, 0⟩).pg_status = 1) :=
  ⟨by decide, by decide, by decide,
    claim_C1_threshold_strict_boundaries ⟨5, 80, 500⟩ ⟨0, 0, 0, 0, 0, 0, 0, 0, 0⟩
      (by decide) (by decide) (by decide)⟩

/-- Claim C2: within a single cycle the severity value is monotonically
non-decreasing.  The published `PG_STATUS` is the fold of `max` over
the ordered list of `status` updates executed in the cycle, starting
from `status = 0`, and the running maximum after any prefix of those
updates never decreases as the next update is applied — no
later-evaluated rule lowers a previously raised severity, for all
inputs. -/
theorem claim_C2_status_monotone (cfg : Config) (tcpOk connectOk : Bool)
    (run : DbRun) (g : Gauges) :
    ((scrape_once cfg tcpOk connectOk run g).pg_status =
      (((statusUpdates cfg tcpOk connectOk run).foldl max 0 : Int) : ℚ)) ∧
    ∀ n : ℕ,
      ((statusUpdates cfg tcpOk connectOk run).take n).foldl max 0 ≤
        ((statusUpdates cfg tcpOk connectOk run).take (n + 1)).foldl max 0 :=
  ⟨scrape_pg_status cfg tcpOk connectOk run g,
    fun n => foldl_max_take_le 0 (statusUpdates cfg tcpOk connectOk run) n⟩

/-- Claim C3: the published overall severity equals the maximum
severity over all rules triggered in the cycle (0 when none trigger),
and a cycle with successful probe and connection, the `(1,)` liveness
row, no exception, measured latency at most the latency threshold, and
unfiltered idle-in-transaction and active counts at most their
thresholds publishes severity 0. -/
theorem claim_C3_status_is_max_of_findings :
    (∀ (cfg : Config) (tcpOk connectOk : Bool) (run : DbRun) (g : Gauges),
      (scrape_once cfg tcpOk connectOk run g).pg_status =
        (((ruleSeverities cfg tcpOk connectOk run).foldl max 0 : Int) : ℚ)) ∧
    (∀ (cfg : Config) (lat : ℚ) (a i t a2 i2 t2 : Int) (g : Gauges),
      0 ≤ lat → lat ≤ (cfg.warn_latency_ms : ℚ) →
      i ≤ cfg.warn_idle_in_tx → a ≤ cfg.warn_active_conn →
      (scrape_once cfg true true (cleanRun lat (a, i, t) (a2, i2, t2)) g).pg_status
        = 0) := by
  constructor
  · intro cfg tcpOk connectOk run g
    rw [scrape_pg_status]
    rcases tcpOk with _ | _
    · rfl
    rcases connectOk with _ | _
    · rfl
    rw [updatesMax_eq_rulesMax]
  · intro cfg lat a i t a2 i2 t2 g h0 hlat hidle hactive
    rw [scrape_clean_status, if_pos h0, if_neg (not_lt.mpr hlat),
      if_neg (not_lt.mpr hidle), if_neg (not_lt.mpr hactive)]
    norm_num

/-- Claim C3 witness: Scenario 1 — latency 50 against threshold 500,
unfiltered counts (active 2, idle-in-tx 0, total 10), filtered counts
(1, 0, 3): severity 0. -/
theorem claim_C3_status_is_max_of_findings_witness :
    (0 : ℚ) ≤ 50 ∧ (50 : ℚ) ≤ (((500 : Int)) : ℚ) ∧ (0 : Int) ≤ 5 ∧ (2 : Int) ≤ 80 ∧
    (scrape_once ⟨5, 80, 500⟩ true true (cleanRun 50 (2, 0, 10) (1, 0, 3))
      ⟨0, 0, 0, 0, 0, 0, 0, 0, 0⟩).pg_status = 0 :=
  ⟨by norm_num, by norm_num, by decide, by decide,
    claim_C3_status_is_max_of_findings.2 ⟨5, 80, 500⟩ 50 2 0 10 1 0 3
      ⟨0, 0, 0, 0, 0, 0, 0, 0, 0⟩ (by norm_num) (by norm_num) (by decide) (by decide)⟩

/-- When an exception is raised anywhere in the `try` block, the
`except` handler leaves `status` at exactly 2 (CRITICAL). -/
theorem gather_status_of_raised (run : DbRun) (h : raisedException run = true) :
    (gather run).status = 2 := by
  rcases run with ⟨s1, s2, s3⟩
  rcases s1 with ⟨⟨⟩⟩ | ⟨row, lat⟩
  · simp [gather]
  · rcases s2 with ⟨⟨⟩⟩ | r2
    · by_cases hrow : row = some [1] <;> simp [gather, hrow]
    · rcases s3 with ⟨⟨⟩⟩ | r3
      · by_cases hrow : row = some [1] <;> simp [gather, hrow]
      · simp [raisedException] at h

/-- Claim C5: partial-failure policy.  On a cycle where the liveness
query or either statistics query raises, the exception is caught and
severity is published as CRITICAL (2); the cycle still reaches the
threshold analysis and publishes every gauge from the partial data
gathered before the exception (the result does not depend on the
previous gauge values, so every gauge is written); when the exception
hits the liveness query itself, the never-assigned values default to
zero for the counts and to the -1 sentinel for the latency. -/
theorem claim_C5_partial_failure_policy (cfg : Config) (run : DbRun) (g : Gauges)
    (h : raisedException run = true) :
    (scrape_once cfg true true run g).pg_status = 2 ∧
    (scrape_once cfg true true run g).pg_up = 1 ∧
    (∀ g' : Gauges, scrape_once cfg true true run g' = scrape_once cfg true true run g) ∧
    (run.select1 = .error () →
      scrape_once cfg true true run g = ⟨1, -1, 0, 0, 0, 0, 0, 0, 2⟩) := by
  have hs : (gather run).status = 2 := gather_status_of_raised run h
  refine ⟨?_, rfl, fun _ => rfl, ?_⟩
  · simp only [scrape_once, Bool.true_eq_false, if_false]
    split_ifs <;> rw [hs] <;> norm_num
  · intro he
    rcases run with ⟨s1, s2, s3⟩
    dsimp only at he
    subst he
    simp only [scrape_once, Bool.true_eq_false, if_false, gather_select1_error,
      Gauges.mk.injEq]
    norm_num

/-- Claim C5 witness: a cycle whose liveness query raises publishes
severity 2, the up flag, and all-default values, independently of the
previous gauge values. -/
theorem claim_C5_partial_failure_policy_witness :
    raisedException ⟨.error (), .ok Option.none, .ok Option.none⟩ = true ∧
    ((scrape_once ⟨5, 80, 500⟩ true true ⟨.error (), .ok Option.none, .ok Option.none⟩
        ⟨7, 7, 7, 7, 7, 7, 7, 7, 7⟩).pg_status = 2 ∧
      (scrape_once ⟨5, 80, 500⟩ true true ⟨.error (), .ok Option.none, .ok Option.none⟩
        ⟨7, 7, 7, 7, 7, 7, 7, 7, 7⟩).pg_up = 1 ∧
      (∀ g' : Gauges,
        scrape_once ⟨5, 80, 500⟩ true true ⟨.error (), .ok Option.none, .ok Option.none⟩ g' =
          scrape_once ⟨5, 80, 500⟩ true true ⟨.error (), .ok Option.none, .ok Option.none⟩
            ⟨7, 7, 7, 7, 7, 7, 7, 7, 7⟩) ∧
      ((⟨.error (), .ok Option.none, .ok Option.none⟩ : DbRun).select1 = .error () →
        scrape_once ⟨5, 80, 500⟩ true true ⟨.error (), .ok Option.none, .ok Option.none⟩
          ⟨7, 7, 7, 7, 7, 7, 7, 7, 7⟩ = ⟨1, -1, 0, 0, 0, 0, 0, 0, 2⟩)) :=
  ⟨rfl, claim_C5_partial_failure_policy ⟨5, 80, 500⟩
    ⟨.error (), .ok Option.none, .ok Option.none⟩ ⟨7, 7, 7, 7, 7, 7, 7, 7, 7⟩ rfl⟩

/-- An `env` call with `required=False` never raises: whatever the
environment holds, it returns some value. -/
theorem env_not_required_ok (environ : String → Option String) (name : String)
    (default : PyVal) (cast : PyVal → Option PyVal) :
    ∃ v, env environ name default false cast = .ok v := by
  rcases henv : environ name with _ | s
  · by_cases h : default = PyVal.pyNone
    · exact ⟨PyVal.pyNone, by simp [env, henv, h]⟩
    · rcases hc : cast default with _ | v
      · exact ⟨default, by simp [env, henv, h, hc]⟩
      · exact ⟨v, by simp [env, henv, h, hc]⟩
  · rcases hc : cast (PyVal.str s) with _ | v
    · exact ⟨default, by simp [env, henv, hc]⟩
    · exact ⟨v, by simp [env, henv, hc]⟩

/-- With `AF_PG_PASSWORD` absent, the required `env` call raises
`RuntimeError`. -/
theorem env_password_absent (environ : String → Option String)
    (h : environ "AF_PG_PASSWORD" = Option.none) :
    env environ "AF_PG_PASSWORD" .pyNone true pyStrCast =
      .error "Env var AF_PG_PASSWORD is required" := by
  simp [env, h]

/-- With `AF_PG_PASSWORD` set, the required `env` call returns the
value. -/
theorem env_password_present (environ : String → Option String) (p : String)
    (h : environ "AF_PG_PASSWORD" = some p) :
    env environ "AF_PG_PASSWORD" .pyNone true pyStrCast = .ok (.str p) := by
  simp [env, h, pyStrCast]

/-- With `AF_PG_HOST` absent, its `env` call returns the default host
`"127.0.0.1"` — it does not raise. -/
theorem env_host_absent (environ : String → Option String)
    (h : environ "AF_PG_HOST" = Option.none) :
    env environ "AF_PG_HOST" (.str "127.0.0.1") false pyStrCast =
      .ok (.str "127.0.0.1") := by
  simp [env, h, pyStrCast]

/-- Claim C8 counterexample: an environment in which the host variable
`AF_PG_HOST` is absent (only the password is set) does NOT abort
startup — the whole startup sequence succeeds and the host silently
defaults to `"127.0.0.1"`. -/
theorem claim_C8_counterexample :
    environPasswordOnly "AF_PG_HOST" = Option.none ∧
    (startupConfig environPasswordOnly).isOk = true ∧
    startupConfig environPasswordOnly =
      .ok ⟨.str "127.0.0.1", .int 5432, .str "airflow", .str "airflow", .str "s3cret",
        .int 10, .int 9105, .str "0.0.0.0", .int 5, .int 80, .int 500⟩ :=
  ⟨by decide, by decide, by rfl⟩

/-- Monad reduction for `Except`: binding a success applies the
continuation. -/
theorem except_bind_ok {ε α β : Type} (a : α) (f : α → Except ε β) :
    Bind.bind (Except.ok a) f = f a := rfl

/-- Monad reduction for `Except`: binding a failure propagates it. -/
theorem except_bind_error {ε α β : Type} (e : ε) (f : α → Except ε β) :
    Bind.bind (Except.error e : Except ε α) f = Except.error e := rfl

/-- Functor reduction for `Except`: mapping over a success. -/
theorem except_map_ok {ε α β : Type} (f : α → β) (a : α) :
    Functor.map f (Except.ok a : Except ε α) = Except.ok (f a) := rfl

/-- An `Except.error` is not `isOk`. -/
theorem except_error_not_isOk {ε α : Type} (e : ε) :
    (Except.error e : Except ε α).isOk = false := rfl

/-- Claim C8 (amended): the environment variable that is required is
the password, `AF_PG_PASSWORD`: when it is absent, startup aborts with
a `RuntimeError`.  The host variable `AF_PG_HOST` is not required — in
its absence, provided the password is set, startup succeeds and the
host takes the default value `"127.0.0.1"`. -/
theorem claim_C8_amended_password_required (environ : String → Option String) :
    (environ "AF_PG_PASSWORD" = Option.none → (startupConfig environ).isOk = false) ∧
    (∀ p : String, environ "AF_PG_PASSWORD" = some p →
      environ "AF_PG_HOST" = Option.none →
      ∃ c : StartupConfig, startupConfig environ = .ok c ∧
        c.pg_host = .str "127.0.0.1" ∧ c.pg_password = .str p) := by
  obtain ⟨v2, h2⟩ := env_not_required_ok environ "AF_PG_PORT" (.str "5432") pyIntCast
  obtain ⟨v3, h3⟩ := env_not_required_ok environ "AF_PG_DB" (.str "airflow") pyStrCast
  obtain ⟨v4, h4⟩ := env_not_required_ok environ "AF_PG_USER" (.str "airflow") pyStrCast
  obtain ⟨v6, h6⟩ :=
    env_not_required_ok environ "AF_SCRAPE_INTERVAL_SECONDS" (.int 10) pyIntCast
  obtain ⟨v7, h7⟩ := env_not_required_ok environ "AF_EXPORTER_PORT" (.int 9105) pyIntCast
  obtain ⟨v8, h8⟩ := env_not_required_ok environ "AF_EXPORTER_ADDR" (.str "0.0.0.0") pyStrCast
  obtain ⟨v9, h9⟩ := env_not_required_ok environ "AF_WARN_IDLE_IN_TX" (.int 5) pyIntCast
  obtain ⟨v10, h10⟩ :=
    env_not_required_ok environ "AF_WARN_ACTIVE_CONN" (.int 80) pyIntCast
  obtain ⟨v11, h11⟩ :=
    env_not_required_ok environ "AF_WARN_LATENCY_MS" (.int 500) pyIntCast
  obtain ⟨v1, h1⟩ := env_not_required_ok environ "AF_PG_HOST" (.str "127.0.0.1") pyStrCast
  constructor
  · intro hp
    rw [startupConfig, h1, except_bind_ok, h2, except_bind_ok, h3, except_bind_ok,
      h4, except_bind_ok, env_password_absent environ hp, except_bind_error,
      except_error_not_isOk]
  · intro p hp hh
    have hok : startupConfig environ =
        .ok ⟨.str "127.0.0.1", v2, v3, v4, .str p, v6, v7, v8, v9, v10, v11⟩ := by
      rw [startupConfig, env_host_absent environ hh, except_bind_ok, h2,
        except_bind_ok, h3, except_bind_ok, h4, except_bind_ok,
        env_password_present environ p hp, except_bind_ok, h6, except_bind_ok, h7,
        except_bind_ok, h8, except_bind_ok, h9, except_bind_ok, h10, except_bind_ok,
        h11, except_bind_ok]
      exact rfl
    exact ⟨_, hok, rfl, rfl⟩

/-- Claim C8 (amended) witness: with the empty environment startup
aborts; with only `AF_PG_PASSWORD` set it succeeds, host defaulting to
`"127.0.0.1"`. -/
theorem claim_C8_amended_password_required_witness :
    ((fun _ : String => (Option.none : Option String)) "AF_PG_PASSWORD" = Option.none ∧
      (startupConfig (fun _ => Option.none)).isOk = false) ∧
    (environPasswordOnly "AF_PG_PASSWORD" = some "s3cret" ∧
      environPasswordOnly "AF_PG_HOST" = Option.none ∧
      ∃ c : StartupConfig, startupConfig environPasswordOnly = .ok c ∧
        c.pg_host = .str "127.0.0.1" ∧ c.pg_password = .str "s3cret") :=
  ⟨⟨rfl, (claim_C8_amended_password_required (fun _ => Option.none)).1 rfl⟩,
    ⟨by decide, by decide,
      (claim_C8_amended_password_required environPasswordOnly).2 "s3cret"
        (by decide) (by decide)⟩⟩

/-- Claim C10: when an environment variable is set but its value cannot
be cast, `env` silently returns the supplied default, uncast, instead
of raising.  In particular, with `AF_PG_PORT` set to the non-integer
string `"abc"`, startup succeeds and the configured port is the string
`"5432"` — the default before casting — which is not the integer
5432. -/
theorem claim_C10_cast_failure_returns_default :
    (∀ (environ : String → Option String) (name : String) (default : PyVal)
      (required : Bool) (cast : PyVal → Option PyVal) (s : String),
      environ name = some s → cast (.str s) = Option.none →
      env environ name default required cast = .ok default) ∧
    startupConfig environBadPort =
      .ok ⟨.str "127.0.0.1", .str "5432", .str "airflow", .str "airflow", .str "s3cret",
        .int 10, .int 9105, .str "0.0.0.0", .int 5, .int 80, .int 500⟩ ∧
    PyVal.str "5432" ≠ PyVal.int 5432 := by
  refine ⟨?_, by rfl, by decide⟩
  intro environ name default required cast s hs hc
  simp [env, hs, hc]

/-- Claim C10 witness: the port variable set to `"abc"` makes its `env`
call return the string default `"5432"`. -/
theorem claim_C10_cast_failure_returns_default_witness :
    environBadPort "AF_PG_PORT" = some "abc" ∧
    pyIntCast (.str "abc") = Option.none ∧
    env environBadPort "AF_PG_PORT" (.str "5432") false pyIntCast =
      .ok (.str "5432") :=
  ⟨by decide, by decide,
    claim_C10_cast_failure_returns_default.1 environBadPort "AF_PG_PORT"
      (.str "5432") false pyIntCast "abc" (by decide) (by decide)⟩

end AirflowPgHealthcheck

